import Mathlib

/-!
Shallow embedding of the witticism core: the push-to-talk / combo key
tracker (src/witticism/core/hotkey_manager.py) and the VAD-driven audio
capture loop (src/witticism/core/audio_capture.py).

Modelling conventions:
* Durations: the Python source stores thresholds as float seconds
  (min_speech_duration = 0.5, max_silence_duration = 1.0) and computes
  silence_duration = silence_frames * chunk_duration_ms / 1000 in float
  seconds.  The embedding scales every duration by 1000 and works in exact
  integer milliseconds; at the millisecond granularity of these
  computations the float comparisons of the source agree exactly with the
  integer comparisons (all compared quantities are integer multiples of
  one millisecond, far above double-precision rounding error).
* Time: the capture thread obtains frames from a blocking read of a live
  audio device, so one loop iteration corresponds to one chunk duration of
  wall-clock time.  The calls to time.time() in the source are therefore
  modelled by the frame index: the difference of two such timestamps is
  (index difference) * chunk_duration_ms milliseconds.
* The VAD classifier is an external pluggable collaborator; its verdict
  for a frame is modelled as a boolean carried by the frame.
* Callback invocations (on_speech_start, callback(segment), on_speech_end,
  push-to-talk and toggle signals) are modelled as an ordered event trace
  accumulated in the state.
-/

namespace Witticism

/-- Keyboard key identities, mirroring the pynput keys the source uses:
generic and left/right modifier variants, function keys, space, and
printable characters (pynput KeyCode.from_char). -/
inductive Key where
  | ctrl | ctrl_l | ctrl_r
  | alt | alt_l | alt_r
  | f1 | f2 | f3 | f4 | f5 | f6 | f7 | f8 | f9 | f10 | f11 | f12
  | space
  | char (c : Char)
deriving DecidableEq, Repr

/-- Signals emitted by the key tracker: the on_push_to_talk_start,
on_push_to_talk_stop and on_toggle callbacks of HotkeyManager. -/
inductive Signal where
  | pttStart
  | pttStop
  | toggle
deriving DecidableEq, Repr

/-- Raw keyboard events delivered by the listener. -/
inductive KeyEvent where
  | press (k : Key)
  | release (k : Key)
deriving DecidableEq, Repr

/-- State of HotkeyManager: the held-key set current_keys (a Python set,
modelled as a duplicate-free list queried only through membership), the
configured PTT key, the ptt_active edge flag, and the ordered trace of
emitted signals. -/
structure HotkeyState where
  current_keys : List Key
  ptt_key : Key
  ptt_active : Bool
  signals : List Signal
deriving DecidableEq, Repr

/-- Initial HotkeyManager state: empty held-key set, PTT key F9
(source line 21), ptt_active false. -/
def initHotkey : HotkeyState := ⟨[], Key.f9, false, []⟩

/-- Variants accepted for the control modifier role
(hotkey_manager.py lines 100-102). -/
def ctrlVariants : List Key := [Key.ctrl, Key.ctrl_l, Key.ctrl_r]

/-- Variants accepted for the alt modifier role
(hotkey_manager.py lines 104-106). -/
def altVariants : List Key := [Key.alt, Key.alt_l, Key.alt_r]

/-- HotkeyManager._is_combo_pressed: every requested key must be held,
where a key of the control family is satisfied by any held control
variant, a key of the alt family by any held alt variant, and any other
key by exact membership in the held-key set. -/
def is_combo_pressed (current_keys : List Key) (keys : List Key) : Bool :=
  keys.all fun key =>
    if key ∈ ctrlVariants then
      ctrlVariants.any fun k => decide (k ∈ current_keys)
    else if key ∈ altVariants then
      altVariants.any fun k => decide (k ∈ current_keys)
    else
      decide (key ∈ current_keys)

/-- Toggle combination checked on every press: Ctrl+Alt+M
(hotkey_manager.py lines 69-73). -/
def toggleCombo : List Key := [Key.ctrl_l, Key.alt_l, Key.char 'm']

/-- Set-insertion into the held-key list (Python set.add). -/
def addKey (k : Key) (l : List Key) : List Key :=
  if k ∈ l then l else k :: l

/-- HotkeyManager._on_key_press: emit a start-signal on the edge where the
PTT key is pressed while ptt_active is false; add the key to the held-key
set; then re-evaluate the toggle combination and emit a toggle-signal
whenever it is fully pressed. -/
def on_key_press (k : Key) (st : HotkeyState) : HotkeyState :=
  let st1 :=
    if k = st.ptt_key ∧ st.ptt_active = false then
      { st with ptt_active := true, signals := st.signals ++ [Signal.pttStart] }
    else st
  let st2 := { st1 with current_keys := addKey k st1.current_keys }
  if is_combo_pressed st2.current_keys toggleCombo then
    { st2 with signals := st2.signals ++ [Signal.toggle] }
  else st2

/-- HotkeyManager._on_key_release: emit a stop-signal on the edge where
the PTT key is released while ptt_active is true; remove the key from the
held-key set (Python set.discard). -/
def on_key_release (k : Key) (st : HotkeyState) : HotkeyState :=
  let st1 :=
    if k = st.ptt_key ∧ st.ptt_active = true then
      { st with ptt_active := false, signals := st.signals ++ [Signal.pttStop] }
    else st
  { st1 with current_keys := st1.current_keys.erase k }

/-- HotkeyManager.change_ptt_key (source lines 114-116): unconditionally
replace the configured PTT key. -/
def change_ptt_key (k : Key) (st : HotkeyState) : HotkeyState :=
  { st with ptt_key := k }

/-- Dispatch one raw keyboard event to the press or release handler. -/
def handleEvent (st : HotkeyState) : KeyEvent → HotkeyState
  | KeyEvent.press k => on_key_press k st
  | KeyEvent.release k => on_key_release k st

/-- Run the key tracker over an ordered stream of keyboard events. -/
def runHotkeys : HotkeyState → List KeyEvent → HotkeyState
  | st, [] => st
  | st, e :: es => runHotkeys (handleEvent st e) es

/-- Number of toggle-signals in a signal trace. -/
def countToggles (l : List Signal) : ℕ :=
  l.countP fun s => decide (s = Signal.toggle)

/-- Number of start-signals in a signal trace. -/
def countPttStarts (l : List Signal) : ℕ :=
  l.countP fun s => decide (s = Signal.pttStart)

/-- Number of stop-signals in a signal trace. -/
def countPttStops (l : List Signal) : ℕ :=
  l.countP fun s => decide (s = Signal.pttStop)

/-- Audio frame delivered by one blocking stream read: its int16 samples
together with the external VAD classifier verdict for the frame. -/
structure Frame where
  samples : List ℤ
  is_speech_frame : Bool
deriving DecidableEq, Repr

/-- AudioCapture configuration; durations in exact integer milliseconds
(the source holds min_speech_duration and max_silence_duration in float
seconds, scaled here by 1000). -/
structure CaptureConfig where
  sample_rate : ℕ
  chunk_duration_ms : ℕ
  min_speech_duration_ms : ℕ
  max_silence_duration_ms : ℕ
deriving DecidableEq, Repr

/-- Samples per chunk, int(sample_rate * chunk_duration_ms / 1000)
(audio_capture.py line 31); Python truncating int() on a nonnegative
value equals natural division. -/
def CaptureConfig.chunk_size (cfg : CaptureConfig) : ℕ :=
  cfg.sample_rate * cfg.chunk_duration_ms / 1000

/-- Default AudioCapture configuration (audio_capture.py lines 16-21):
16 kHz, 30 ms chunks, min_speech_duration 0.5 s, max_silence_duration
1.0 s. -/
def defaultConfig : CaptureConfig := ⟨16000, 30, 500, 1000⟩

/-- Observable events of the capture loop, in emission order: the
on_speech_start callback, the segment callback with its concatenated
samples, and the on_speech_end callback. -/
inductive CaptureEvent where
  | speechStart
  | segment (samples : List ℤ)
  | speechEnd
deriving DecidableEq, Repr

/-- State threaded through AudioCapture._capture_loop: the recording
buffer of raw frames, the pending speech_frames buffer, the consecutive
silence_frames counter, the is_speech flag, the frame index at which the
current speech run started (standing for the wall-clock
speech_start_time), and the ordered trace of emitted events. -/
structure CaptureState where
  recording_buffer : List (List ℤ)
  speech_frames : List (List ℤ)
  silence_frames : ℕ
  is_speech : Bool
  speech_start_index : Option ℕ
  events_out : List CaptureEvent
deriving DecidableEq, Repr

/-- Local state at entry of AudioCapture._capture_loop (lines 130-133),
with an empty recording buffer as set by start_recording. -/
def initCaptureState : CaptureState := ⟨[], [], 0, false, none, []⟩

/-- VAD state machine of one _capture_loop iteration (audio_capture.py
lines 153-186), after the frame has been stored in the recording buffer.
idx is the index of the frame being processed; time.time() differences of
the source are modelled as index differences times the chunk duration,
the wall-clock pacing of a blocking read from a live device. -/
def vadStep (cfg : CaptureConfig) (st : CaptureState) (idx : ℕ) (f : Frame) :
    CaptureState :=
  if f.is_speech_frame then
    let st1 :=
      if st.is_speech = false then
        { st with is_speech := true, speech_start_index := some idx,
                  events_out := st.events_out ++ [CaptureEvent.speechStart] }
      else st
    { st1 with speech_frames := st1.speech_frames ++ [f.samples],
               silence_frames := 0 }
  else
    if st.is_speech then
      let silence_frames := st.silence_frames + 1
      if silence_frames * cfg.chunk_duration_ms ≥ cfg.max_silence_duration_ms then
        let speech_duration_ms : ℤ :=
          ((idx : ℤ) - ((st.speech_start_index.getD 0 : ℕ) : ℤ)) *
            (cfg.chunk_duration_ms : ℤ)
        let st1 :=
          if speech_duration_ms ≥ (cfg.min_speech_duration_ms : ℤ) then
            { st with events_out := st.events_out ++
                [CaptureEvent.segment st.speech_frames.flatten,
                 CaptureEvent.speechEnd] }
          else st
        { st1 with is_speech := false, speech_frames := [],
                   silence_frames := 0, speech_start_index := none }
      else
        { st with silence_frames := silence_frames }
    else st

/-- One full _capture_loop iteration: the frame read from the stream is
unconditionally appended to the recording buffer (line 148) and then fed
to the VAD state machine. -/
def processFrame (cfg : CaptureConfig) (st : CaptureState) (idx : ℕ)
    (f : Frame) : CaptureState :=
  vadStep cfg
    { st with recording_buffer := st.recording_buffer ++ [f.samples] } idx f

/-- Capture loop over the remaining frames, starting at frame index i. -/
def captureLoopAux (cfg : CaptureConfig) : CaptureState → ℕ → List Frame →
    CaptureState
  | st, _, [] => st
  | st, i, f :: fs => captureLoopAux cfg (processFrame cfg st i f) (i + 1) fs

/-- Run the capture loop from the initial state over a frame sequence. -/
def runCaptureLoop (cfg : CaptureConfig) (frames : List Frame) : CaptureState :=
  captureLoopAux cfg initCaptureState 0 frames

/-- Segments delivered to the segment callback, in order. -/
def segmentsOf (l : List CaptureEvent) : List (List ℤ) :=
  l.filterMap fun e =>
    match e with
    | CaptureEvent.segment s => some s
    | _ => none

/-- Number of on_speech_start invocations in an event trace. -/
def countSpeechStarts (l : List CaptureEvent) : ℕ :=
  l.countP fun e => decide (e = CaptureEvent.speechStart)

/-- Number of on_speech_end invocations in an event trace. -/
def countSpeechEnds (l : List CaptureEvent) : ℕ :=
  l.countP fun e => decide (e = CaptureEvent.speechEnd)

/-- Number of segment-callback invocations in an event trace. -/
def countSegments (l : List CaptureEvent) : ℕ :=
  (segmentsOf l).length

/-- Session-level state read by AudioCapture.stop_recording: the
is_recording flag and the recording buffer. -/
structure RecorderState where
  is_recording : Bool
  recording_buffer : List (List ℤ)
deriving DecidableEq, Repr

/-- AudioCapture.stop_recording (lines 105-127): when no session is
active, return an empty array and leave the state untouched; otherwise
clear is_recording and return the concatenation of the recording buffer
(an empty array when the buffer is empty).  The thread join and stream
close of the source are resource operations with no effect on this
state. -/
def stop_recording (st : RecorderState) : List ℤ × RecorderState :=
  if st.is_recording = false then
    ([], st)
  else
    (st.recording_buffer.flatten, { st with is_recording := false })

/-- ASCII lowercasing of one character, the effect of Python str.lower on
the key-name strings considered here. -/
def lowerChar (c : Char) : Char :=
  if 'A' ≤ c ∧ c ≤ 'Z' then Char.ofNat (c.toNat + 32) else c

/-- Characters of a string after case folding. -/
def lowerStr (s : String) : List Char := s.data.map lowerChar

/-- Named-key table of the runtime PTT update operation: function keys
and the space key, looked up by lower-cased name. -/
def parse_key_name : List Char → Option Key
  | ['f', '1'] => some Key.f1
  | ['f', '2'] => some Key.f2
  | ['f', '3'] => some Key.f3
  | ['f', '4'] => some Key.f4
  | ['f', '5'] => some Key.f5
  | ['f', '6'] => some Key.f6
  | ['f', '7'] => some Key.f7
  | ['f', '8'] => some Key.f8
  | ['f', '9'] => some Key.f9
  | ['f', '1', '0'] => some Key.f10
  | ['f', '1', '1'] => some Key.f11
  | ['f', '1', '2'] => some Key.f12
  | ['s', 'p', 'a', 'c', 'e'] => some Key.space
  | _ => none

/-- Modelled from the spec: the runtime PTT-key update operation
(update_hotkey_from_string, referenced by the repository tests but absent
from the sources provided).  Per spec sections 4.3 and 7 it accepts a
case-insensitive string name — a named key such as F12 or Space, or a
single printable character — falls back to the documented default key F9
when the string is unrecognized, and reports success or failure of the
update as a boolean. -/
def update_hotkey_from_string (st : HotkeyState) (s : String) :
    Bool × HotkeyState :=
  match parse_key_name (lowerStr s) with
  | some k => (true, { st with ptt_key := k })
  | none =>
    match lowerStr s with
    | [c] => (true, { st with ptt_key := Key.char c })
    | _ => (false, { st with ptt_key := Key.f9 })

/-- Speech frame of one default chunk (480 samples): all-one samples mark
speech content apart from silence, and the classifier verdict is
speech. -/
def speechFrame : Frame := ⟨List.replicate 480 1, true⟩

/-- Silence frame of one default chunk (480 samples): all-zero samples,
classifier verdict non-speech. -/
def silenceFrame : Frame := ⟨List.replicate 480 0, false⟩

/-- Scenario of spec section 8: 10 speech frames (300 ms) followed by 40
silence frames (1200 ms). -/
def shortRunFrames : List Frame :=
  List.replicate 10 speechFrame ++ List.replicate 40 silenceFrame

/-- Scenario of spec section 8: 20 speech frames (600 ms) followed by 40
silence frames (1200 ms). -/
def longRunFrames : List Frame :=
  List.replicate 20 speechFrame ++ List.replicate 40 silenceFrame

/-- Configuration with min_speech_duration 2.0 s: larger than
max_silence_duration, so a short speech run can be discarded even though
the speech duration is measured up to the silence trigger. -/
def discardConfig : CaptureConfig := ⟨16000, 30, 2000, 1000⟩

/-- One speech frame followed by 40 silence frames: under discardConfig
the pending segment is discarded as too short. -/
def discardRunFrames : List Frame :=
  List.replicate 1 speechFrame ++ List.replicate 40 silenceFrame

set_option maxRecDepth 40000

/-- Helper: the VAD state machine never touches the recording buffer. -/
theorem vadStep_recording_buffer (cfg : CaptureConfig) (st : CaptureState)
    (idx : ℕ) (f : Frame) :
    (vadStep cfg st idx f).recording_buffer = st.recording_buffer := by
  unfold vadStep
  dsimp only
  split_ifs <;> rfl

/-- Helper: one loop iteration appends exactly the incoming frame samples
to the recording buffer. -/
theorem processFrame_recording_buffer (cfg : CaptureConfig)
    (st : CaptureState) (idx : ℕ) (f : Frame) :
    (processFrame cfg st idx f).recording_buffer =
      st.recording_buffer ++ [f.samples] := by
  simp [processFrame, vadStep_recording_buffer]

/-- Helper: the capture loop appends every processed frame to the
recording buffer, in order. -/
theorem captureLoopAux_recording_buffer (cfg : CaptureConfig) :
    ∀ (fs : List Frame) (st : CaptureState) (i : ℕ),
      (captureLoopAux cfg st i fs).recording_buffer =
        st.recording_buffer ++ fs.map Frame.samples
  | [], st, i => by simp [captureLoopAux]
  | f :: fs, st, i => by
    simp [captureLoopAux, captureLoopAux_recording_buffer cfg fs,
      processFrame_recording_buffer]

/-- Helper: a non-speech frame in the Silence state is a no-op for the
VAD state machine. -/
theorem vadStep_skip (cfg : CaptureConfig) (st : CaptureState) (idx : ℕ)
    (f : Frame) (hf : f.is_speech_frame = false)
    (hs : st.is_speech = false) : vadStep cfg st idx f = st := by
  simp [vadStep, hf, hs]

/-- Helper: a non-speech frame in the Silence state only extends the
recording buffer. -/
theorem processFrame_silent (cfg : CaptureConfig) (st : CaptureState)
    (idx : ℕ) (f : Frame) (hf : f.is_speech_frame = false)
    (hs : st.is_speech = false) :
    processFrame cfg st idx f =
      { st with recording_buffer := st.recording_buffer ++ [f.samples] } := by
  unfold processFrame
  exact vadStep_skip cfg _ idx f hf hs

/-- Helper: a run of frames all classified non-speech, starting from the
Silence state, emits no event at all. -/
theorem captureLoopAux_silent (cfg : CaptureConfig) :
    ∀ (fs : List Frame) (st : CaptureState) (i : ℕ),
      st.is_speech = false → (∀ f ∈ fs, f.is_speech_frame = false) →
      (captureLoopAux cfg st i fs).events_out = st.events_out
  | [], _, _, _, _ => rfl
  | f :: fs, st, i, hs, hall => by
    have hf : f.is_speech_frame = false := hall f (List.mem_cons_self f fs)
    rw [captureLoopAux, processFrame_silent cfg st i f hf hs]
    exact captureLoopAux_silent cfg fs _ (i + 1) hs
      (fun g hg => hall g (List.mem_cons_of_mem f hg))

/-- Helper: counting speech-end events distributes over appending. -/
theorem countSpeechEnds_append (a b : List CaptureEvent) :
    countSpeechEnds (a ++ b) = countSpeechEnds a + countSpeechEnds b :=
  List.countP_append _ a b

/-- Helper: counting speech-start events distributes over appending. -/
theorem countSpeechStarts_append (a b : List CaptureEvent) :
    countSpeechStarts (a ++ b) = countSpeechStarts a + countSpeechStarts b :=
  List.countP_append _ a b

/-- Helper: extracting segments distributes over appending. -/
theorem segmentsOf_append (a b : List CaptureEvent) :
    segmentsOf (a ++ b) = segmentsOf a ++ segmentsOf b :=
  List.filterMap_append a b _

/-- Helper: counting segment emissions distributes over appending. -/
theorem countSegments_append (a b : List CaptureEvent) :
    countSegments (a ++ b) = countSegments a + countSegments b := by
  simp [countSegments, segmentsOf_append]

/-- Helper: one VAD step appends an event tail in which speech-end
notifications and segment emissions are in bijection, and at most one
speech-start occurs. -/
theorem vadStep_events_tail (cfg : CaptureConfig) (st : CaptureState)
    (idx : ℕ) (f : Frame) :
    ∃ t, (vadStep cfg st idx f).events_out = st.events_out ++ t ∧
      countSpeechEnds t = countSegments t ∧ countSpeechStarts t ≤ 1 := by
  unfold vadStep
  dsimp only
  split_ifs
  · exact ⟨[CaptureEvent.speechStart], rfl, rfl, le_refl 1⟩
  · exact ⟨[], by simp, rfl, by simp [countSpeechStarts]⟩
  · exact ⟨[CaptureEvent.segment st.speech_frames.flatten,
      CaptureEvent.speechEnd], rfl, rfl, by simp [countSpeechStarts]⟩
  · exact ⟨[], by simp, rfl, by simp [countSpeechStarts]⟩
  · exact ⟨[], by simp, rfl, by simp [countSpeechStarts]⟩
  · exact ⟨[], by simp, rfl, by simp [countSpeechStarts]⟩

/-- Helper: one loop iteration appends an event tail balancing speech-end
notifications and segment emissions. -/
theorem processFrame_events_tail (cfg : CaptureConfig) (st : CaptureState)
    (idx : ℕ) (f : Frame) :
    ∃ t, (processFrame cfg st idx f).events_out = st.events_out ++ t ∧
      countSpeechEnds t = countSegments t ∧ countSpeechStarts t ≤ 1 := by
  unfold processFrame
  exact vadStep_events_tail cfg _ idx f

/-- Helper: the capture loop preserves the balance between speech-end
notifications and segment emissions. -/
theorem captureLoopAux_ends_eq_segments (cfg : CaptureConfig) :
    ∀ (fs : List Frame) (st : CaptureState) (i : ℕ),
      countSpeechEnds st.events_out = countSegments st.events_out →
      countSpeechEnds (captureLoopAux cfg st i fs).events_out =
        countSegments (captureLoopAux cfg st i fs).events_out
  | [], _, _, h => h
  | f :: fs, st, i, h => by
    rw [captureLoopAux]
    obtain ⟨t, ht, hcnt, -⟩ := processFrame_events_tail cfg st i f
    exact captureLoopAux_ends_eq_segments cfg fs _ (i + 1)
      (by rw [ht, countSpeechEnds_append, countSegments_append, h, hcnt])

/-- Helper: one loop iteration fires on_speech_start exactly when the
frame classifies as speech while the machine is in the Silence state. -/
theorem processFrame_start_count (cfg : CaptureConfig) (st : CaptureState)
    (idx : ℕ) (f : Frame) :
    countSpeechStarts (processFrame cfg st idx f).events_out =
      countSpeechStarts st.events_out +
        cond (f.is_speech_frame && !st.is_speech) 1 0 := by
  unfold processFrame vadStep
  dsimp only
  split_ifs <;>
    simp_all [countSpeechStarts_append, countSpeechStarts]

/-- Helper: a single held key never satisfies the Ctrl+Alt+M toggle
combination, whichever key it is. -/
theorem is_combo_pressed_single (k : Key) :
    is_combo_pressed [k] toggleCombo = false := by
  cases k <;> rfl

/-- Helper: pressing the PTT key again while it is the only held key and
ptt_active is true changes nothing. -/
theorem on_key_press_held_fixed (k : Key) (sigs : List Signal) :
    on_key_press k ⟨[k], k, true, sigs⟩ = ⟨[k], k, true, sigs⟩ := by
  simp [on_key_press, addKey, is_combo_pressed_single]

/-- Helper: any number of repeated press events of the held PTT key are
absorbed without effect. -/
theorem runHotkeys_press_repeat (k : Key) (sigs : List Signal) :
    ∀ (n : ℕ) (evs : List KeyEvent),
      runHotkeys ⟨[k], k, true, sigs⟩
          (List.replicate n (KeyEvent.press k) ++ evs) =
        runHotkeys ⟨[k], k, true, sigs⟩ evs
  | 0, _ => rfl
  | n + 1, evs => by
    rw [List.replicate_succ, List.cons_append, runHotkeys]
    show runHotkeys (on_key_press k ⟨[k], k, true, sigs⟩) _ = _
    rw [on_key_press_held_fixed]
    exact runHotkeys_press_repeat k sigs n evs

/-- Helper: the first press of the configured PTT key from the idle state
emits exactly the start-signal. -/
theorem on_key_press_initial (k : Key) :
    on_key_press k ⟨[], k, false, []⟩ = ⟨[k], k, true, [Signal.pttStart]⟩ := by
  simp [on_key_press, addKey, is_combo_pressed_single]

/-- Helper: releasing the PTT key while active emits exactly the
stop-signal. -/
theorem on_key_release_final (k : Key) (sigs : List Signal) :
    on_key_release k ⟨[k], k, true, sigs⟩ =
      ⟨[], k, false, sigs ++ [Signal.pttStop]⟩ := by
  simp [on_key_release]

/-- Helper: length of the concatenation of m copies of an n-sample
block. -/
theorem length_flatten_replicate (m n : ℕ) (a : ℤ) :
    ((List.replicate m (List.replicate n a)).flatten).length = m * n := by
  induction m with
  | zero => simp
  | succ m ih =>
    simp [List.replicate_succ, ih]
    ring

/-- Claim C1: the spec scenario expects that 10 speech frames (300 ms,
below the 500 ms minimum) followed by 40 silence frames yield zero
segments.  The code disagrees: speech_duration is computed as the
wall-clock difference between the silence-threshold trigger and the start
of speech, which under real-time frame pacing includes the trailing
1020 ms of silence, so the 500 ms minimum always passes and one segment
of exactly the 10 speech frames is emitted together with a speech-end
notification.  This theorem evaluates the embedded loop at the failing
input. -/
theorem c1_short_run_segment_emitted :
    (runCaptureLoop defaultConfig shortRunFrames).events_out =
      [CaptureEvent.speechStart,
       CaptureEvent.segment
         (List.replicate 10 (List.replicate 480 (1 : ℤ))).flatten,
       CaptureEvent.speechEnd] ∧
    countSegments (runCaptureLoop defaultConfig shortRunFrames).events_out =
      1 := ⟨rfl, rfl⟩

/-- Claim C2 counterexample: after pressing left-control, left-alt and
the letter m the toggle-signal fires once, and a further (repeat) press
of m while the combination is still fully held fires it a second time,
contradicting the claim that the signal is emitted only on a transition
from not-all-present to all-present. -/
theorem c2_counterexample_toggle_refires :
    (runHotkeys initHotkey
      [KeyEvent.press Key.ctrl_l, KeyEvent.press Key.alt_l,
       KeyEvent.press (Key.char 'm')]).signals = [Signal.toggle] ∧
    (runHotkeys initHotkey
      [KeyEvent.press Key.ctrl_l, KeyEvent.press Key.alt_l,
       KeyEvent.press (Key.char 'm'), KeyEvent.press (Key.char 'm')]).signals =
      [Signal.toggle, Signal.toggle] := ⟨rfl, rfl⟩

/-- Claim C2 as amended: the key tracker is level-triggered, not
edge-triggered: every press event emits one toggle-signal exactly when
the combination is fully present in the held-key set after the pressed
key has been added, so additional presses while the combination stays
held re-fire the signal. -/
theorem c2_toggle_level_triggered (st : HotkeyState) (k : Key) :
    countToggles (on_key_press k st).signals =
      countToggles st.signals +
        cond (is_combo_pressed (addKey k st.current_keys) toggleCombo) 1 0 := by
  unfold on_key_press
  dsimp only
  split_ifs <;>
    simp_all [countToggles, List.countP_append, List.countP_cons]

/-- Claim C3: the runtime PTT-key update operation is case-insensitive
(its result depends only on the lower-cased characters of the argument),
falls back to the default key F9 with a failure report on every
unrecognized string, and accepts named keys such as F12 and Space and
single printable characters, reporting success. -/
theorem c3_update_ptt_key (st : HotkeyState) (s t : String) :
    (lowerStr s = lowerStr t →
      update_hotkey_from_string st s = update_hotkey_from_string st t) ∧
    (parse_key_name (lowerStr s) = none → (lowerStr s).length ≠ 1 →
      update_hotkey_from_string st s = (false, { st with ptt_key := Key.f9 })) ∧
    update_hotkey_from_string st "F12" = (true, { st with ptt_key := Key.f12 }) ∧
    update_hotkey_from_string st "Space" =
      (true, { st with ptt_key := Key.space }) ∧
    update_hotkey_from_string st "x" =
      (true, { st with ptt_key := Key.char 'x' }) := by
  refine ⟨fun h => ?_, fun h1 h2 => ?_, rfl, rfl, rfl⟩
  · unfold update_hotkey_from_string
    rw [h]
  · unfold update_hotkey_from_string
    rw [h1]
    cases hl : lowerStr s with
    | nil => rfl
    | cons c cs =>
      cases cs with
      | nil => exact absurd (by rw [hl]; rfl) h2
      | cons d ds => rfl

/-- Witness for claim C3: the unrecognized string NOPE falls back to F9
with a failure report, and F12 in either capitalization updates
identically. -/
theorem c3_update_ptt_key_witness :
    (parse_key_name (lowerStr "NOPE") = none ∧ (lowerStr "NOPE").length ≠ 1 ∧
      update_hotkey_from_string initHotkey "NOPE" =
        (false, { initHotkey with ptt_key := Key.f9 })) ∧
    (lowerStr "F12" = lowerStr "f12" ∧
      update_hotkey_from_string initHotkey "F12" =
        update_hotkey_from_string initHotkey "f12") :=
  ⟨⟨rfl, by decide,
    (c3_update_ptt_key initHotkey "NOPE" "NOPE").2.1 rfl (by decide)⟩,
   ⟨rfl, (c3_update_ptt_key initHotkey "F12" "f12").1 rfl⟩⟩

/-- Claim C4: in the spec scenario with the default configuration, 20
speech frames (600 ms) followed by 40 silence frames (1200 ms) produce
exactly the event trace of one speech-start notification, one segment
consisting of exactly the 20 speech frames (20 times 480 = 9600 samples,
none of the trailing silence), and one speech-end notification. -/
theorem c4_long_run_single_segment :
    (runCaptureLoop defaultConfig longRunFrames).events_out =
      [CaptureEvent.speechStart,
       CaptureEvent.segment
         (List.replicate 20 (List.replicate 480 (1 : ℤ))).flatten,
       CaptureEvent.speechEnd] ∧
    ((List.replicate 20 (List.replicate 480 (1 : ℤ))).flatten).length =
      20 * 480 ∧
    defaultConfig.chunk_size = 480 :=
  ⟨rfl, length_flatten_replicate 20 480 1, rfl⟩

/-- Claim C5: every delivered frame is appended to the recording buffer
regardless of classification — the buffer equals the sample lists of the
delivered frames in order — and when every frame carries the frame
sample count n, the total buffered sample count is the number of frames
times n. -/
theorem c5_recording_buffer_complete (cfg : CaptureConfig)
    (frames : List Frame) (n : ℕ) :
    (runCaptureLoop cfg frames).recording_buffer = frames.map Frame.samples ∧
    ((∀ f ∈ frames, f.samples.length = n) →
      (((runCaptureLoop cfg frames).recording_buffer).map List.length).sum =
        frames.length * n) := by
  have hbuf : (runCaptureLoop cfg frames).recording_buffer =
      frames.map Frame.samples := by
    unfold runCaptureLoop
    rw [captureLoopAux_recording_buffer]
    rfl
  refine ⟨hbuf, fun h => ?_⟩
  rw [hbuf, List.map_map]
  have hall : ∀ x ∈ frames.map (List.length ∘ Frame.samples), x = n := by
    intro x hx
    obtain ⟨f, hf, rfl⟩ := List.mem_map.1 hx
    exact h f hf
  rw [List.sum_eq_card_nsmul _ n hall, List.length_map, smul_eq_mul]

/-- Witness for claim C5: one speech and one silence frame of 480
samples each leave 2 times 480 samples in the recording buffer. -/
theorem c5_recording_buffer_complete_witness :
    (∀ f ∈ [speechFrame, silenceFrame], f.samples.length = 480) ∧
    (((runCaptureLoop defaultConfig
        [speechFrame, silenceFrame]).recording_buffer).map List.length).sum =
      2 * 480 :=
  ⟨by decide,
   (c5_recording_buffer_complete defaultConfig [speechFrame, silenceFrame]
      480).2 (by decide)⟩

/-- Claim C6: stop_recording is always safe: with no active session it
returns an empty buffer and changes nothing, after any call the session
state is Idle, and a second consecutive call returns an empty buffer. -/
theorem c6_stop_recording_idempotent (st : RecorderState)
    (buf : List (List ℤ)) :
    stop_recording ⟨false, buf⟩ = ([], ⟨false, buf⟩) ∧
    (stop_recording st).2.is_recording = false ∧
    (stop_recording ((stop_recording st).2)).1 = [] := by
  obtain ⟨r, b⟩ := st
  cases r <;> exact ⟨rfl, rfl, rfl⟩

/-- Claim C7: from a fresh tracker configured with any PTT key, a run of
N+1 consecutive press events of that key with no intervening release
followed by one release produces exactly one start-signal followed by
exactly one stop-signal and nothing else. -/
theorem c7_ptt_edge_triggered (k : Key) (n : ℕ) :
    (runHotkeys (change_ptt_key k initHotkey)
        (List.replicate (n + 1) (KeyEvent.press k) ++
          [KeyEvent.release k])).signals = [Signal.pttStart, Signal.pttStop] := by
  have h0 : change_ptt_key k initHotkey = ⟨[], k, false, []⟩ := rfl
  rw [h0, List.replicate_succ, List.cons_append, runHotkeys]
  show (runHotkeys (on_key_press k ⟨[], k, false, []⟩) _).signals = _
  rw [on_key_press_initial, runHotkeys_press_repeat]
  show (runHotkeys _ [KeyEvent.release k]).signals = _
  rw [runHotkeys]
  show (runHotkeys
    (on_key_release k ⟨[k], k, true, [Signal.pttStart]⟩) []).signals = _
  rw [on_key_release_final]
  rfl

/-- Claim C8: the combo-pressed predicate gives identical results — both
true — for the held-key set with the left modifier variants and the one
with the right modifier variants, against the configured Ctrl+Alt+M
combination. -/
theorem c8_modifier_variants :
    is_combo_pressed [Key.ctrl_l, Key.alt_l, Key.char 'm'] toggleCombo =
      is_combo_pressed [Key.ctrl_r, Key.alt_r, Key.char 'm'] toggleCombo ∧
    is_combo_pressed [Key.ctrl_l, Key.alt_l, Key.char 'm'] toggleCombo = true :=
  ⟨rfl, rfl⟩

/-- Claim C9: a frame sequence in which no frame classifies as speech
makes the segmentation engine emit no segment and invoke no segment
callback. -/
theorem c9_no_speech_no_segment (cfg : CaptureConfig) (frames : List Frame)
    (h : ∀ f ∈ frames, f.is_speech_frame = false) :
    segmentsOf (runCaptureLoop cfg frames).events_out = [] := by
  unfold runCaptureLoop
  rw [captureLoopAux_silent cfg frames initCaptureState 0 rfl h]
  rfl

/-- Witness for claim C9: three silence frames produce no segment. -/
theorem c9_no_speech_no_segment_witness :
    (∀ f ∈ List.replicate 3 silenceFrame, f.is_speech_frame = false) ∧
    segmentsOf (runCaptureLoop defaultConfig
      (List.replicate 3 silenceFrame)).events_out = [] :=
  ⟨by decide, c9_no_speech_no_segment defaultConfig _ (by decide)⟩

/-- Claim C10: speech-start and speech-end notifications are not paired
one-to-one: in every run the number of speech-end notifications equals
the number of emitted segments, each loop iteration fires a speech-start
exactly on a Silence-to-Speech transition (also for runs later
discarded), and a concrete run whose speech is discarded as shorter than
the minimum produces one speech-start with no segment and no
speech-end. -/
theorem c10_start_end_not_paired :
    (∀ (cfg : CaptureConfig) (frames : List Frame),
      countSpeechEnds (runCaptureLoop cfg frames).events_out =
        countSegments (runCaptureLoop cfg frames).events_out) ∧
    (∀ (cfg : CaptureConfig) (st : CaptureState) (idx : ℕ) (f : Frame),
      countSpeechStarts (processFrame cfg st idx f).events_out =
        countSpeechStarts st.events_out +
          cond (f.is_speech_frame && !st.is_speech) 1 0) ∧
    (runCaptureLoop discardConfig discardRunFrames).events_out =
      [CaptureEvent.speechStart] :=
  ⟨fun cfg frames => captureLoopAux_ends_eq_segments cfg frames _ 0 rfl,
   processFrame_start_count, rfl⟩

end Witticism
